import Mathlib

/-!
Shallow embedding of `trod/model_/core.py`: the schema-registration metaclass
(`_ModelMeta.__prepare__`, `_ModelMeta.__getattr__`, `_ModelMeta.__setattr__`),
the `_Model` instance methods (`__getattr__`, `__setattr__`, `__self__`,
`_save`, `_remove`), the `Rows` payload normalizer, and the result codec
(`load`, `_empty`, `_load_to_model`).

Machine-level conventions: Python values are `PyVal`, Python `dict`s are
ordered association lists, raised exceptions are the error side of `Except`.
-/

/-- Decidable equality for `Except`, so concrete runs of the embedded code
can be checked with `decide`. -/
instance {ε α : Type} [DecidableEq ε] [DecidableEq α] :
    DecidableEq (Except ε α) := fun a b =>
  match a, b with
  | .ok x, .ok y => decidable_of_iff (x = y) (by simp)
  | .error x, .error y => decidable_of_iff (x = y) (by simp)
  | .ok _, .error _ => isFalse (by simp)
  | .error _, .ok _ => isFalse (by simp)

namespace Trod

/-- Python runtime values, restricted to the shapes the embedded code handles.
`vnone` is Python `None`. -/
inductive PyVal where
  | vnone : PyVal
  | int : Int → PyVal
  | str : String → PyVal
  deriving DecidableEq, Repr

/-- Python `str.lower()` on the class names in play (ASCII), written over
the character list so that concrete runs reduce in the kernel. -/
def lowerString (s : String) : String :=
  ⟨s.data.map Char.toLower⟩

/-- Python truthiness for the embedded values: `None`, `0` and the empty
string are falsy, everything else is truthy. -/
def pyTruthy : PyVal → Bool
  | .vnone => false
  | .int n => n != 0
  | .str s => s != ""

/-- The exception classes raised by `core.py` (messages dropped).
`typeError` stands for Python's built-in `TypeError`, `attributeError` for
`AttributeError`, `valueError` for `ValueError`, `runtimeError` for
`RuntimeError`; the rest are the classes from `trod.errors` used in the
file (`DuplicateFieldNameError`, `DuplicatePKError`, `InvalidFieldType`,
`NoPKError`, `ModelSetAttrError`, `ModifyAutoPkError`). -/
inductive PyErr where
  | duplicateFieldName
  | duplicatePK
  | invalidFieldType
  | noPK
  | typeError
  | modelSetAttr
  | attributeError
  | modifyAutoPk
  | valueError
  | runtimeError
  deriving DecidableEq, Repr

/-- The two non-fatal diagnostics (`warnings.warn` with
`errors.ProgrammingWarning`) emitted during registration: the missing
table-name notice of line 21 and the auto-increment naming notice of
line 46. -/
inductive Warning where
  | missingTableName
  | aipkNaming
  deriving DecidableEq, Repr

/-- Modelled from the spec: `types.__real__.FieldBase` is not under `src/`.
A FieldDescriptor has a name (empty string while not yet assigned, matching
the `field.name or attr` falsy test), an `is_primary_key` flag `pk`, an
`is_auto_increment` flag `ai`, and an optional default-value producer
`dflt`. -/
structure FieldBase where
  name : String := ""
  pk : Bool := false
  ai : Bool := false
  dflt : Option PyVal := Option.none
  deriving DecidableEq, Repr

/-- The `utils.Tdict(auto=False, field=None, ai=None)` accumulator built by
`__prepare__` (line 28) and stored as `Table.pk`. -/
structure PKInfo where
  auto : Bool
  field : Option FieldBase
  ai : Option Int
  deriving DecidableEq, Repr

/-- A value appearing in a model class body: either a field descriptor or a
plain (non-field) attribute value. -/
inductive AttrVal where
  | fld : FieldBase → AttrVal
  | plain : PyVal → AttrVal
  deriving DecidableEq, Repr

/-- Modelled from the spec: `tables.Table` is not under `src/`. This captures
the metadata `core.py` reads back from a registered table: the table name,
the ordered `fields_dict` (keyed by attribute name, as built at line 52),
and the primary-key info. The `database`, `indexes`, `charset` and `comment`
arguments of the constructor call at lines 68-73 are also recorded. -/
structure TableT where
  name : String
  fieldsDict : List (String × FieldBase)
  pk : PKInfo
  indexes : List AttrVal := []
  charset : Option AttrVal := Option.none
  comment : Option AttrVal := Option.none
  deriving DecidableEq, Repr

/-- The registered primary key's field name, i.e. `table.pk.field.name`.
The embedded methods are only ever applied to tables whose `pk.field` is
set (registration guarantees it); the empty string is a dead default. -/
def TableT.pkName (t : TableT) : String :=
  match t.pk.field with
  | some f => f.name
  | Option.none => ""

/-- Modelled from the spec: `tables.Table.DEFAULT`, the small fixed set of
framework-reserved attribute names a class body may contain besides field
descriptors (line 53). -/
def tableDEFAULT : List String :=
  ["__db__", "__table__", "__indexes__", "__charset__", "__comment__"]

/-- Modelled from the spec: `tables.Table.AIPK`, the conventional name of an
auto-increment primary key (line 45; the spec's concrete scenarios use
`id`). -/
def tableAIPK : String := "id"

/-- Python `attrs.pop(key, default)` on an ordered attribute dict: returns
the value bound to `key` (if any) and the dict without that key. -/
def popAttr (key : String) (attrs : List (String × AttrVal)) :
    Option AttrVal × List (String × AttrVal) :=
  match attrs.lookup key with
  | some v => (some v, attrs.filter (fun p => p.1 ≠ key))
  | Option.none => (Option.none, attrs)

/-- Truthiness of a popped attribute value: `None` (absent) is falsy, a
plain value has Python truthiness, any other object is truthy. -/
def attrTruthy : Option AttrVal → Bool
  | Option.none => false
  | some (.plain v) => pyTruthy v
  | some (.fld _) => true

/-- Line 35, `field.name = field.name or attr`: keep a non-falsy declared
name, otherwise take the attribute key. -/
def resolveName (f : FieldBase) (attr : String) : String :=
  if f.name = "" then attr else f.name

/-- The scan state of the `__prepare__` loop: the `fields` ordered dict, the
`pk` accumulator, and the warnings emitted so far. -/
structure ScanState where
  fields : List (String × FieldBase)
  pk : PKInfo
  warns : List Warning
  deriving DecidableEq, Repr

/-- Line 31, `if pk.field and attr == pk.field.name`: a field object is
always truthy, so this fires exactly when a primary key is registered and
the current attribute key equals its name. -/
def dupName (st : ScanState) (attr : String) : Bool :=
  match st.pk.field with
  | some pf => attr == pf.name
  | Option.none => false

/-- Lines 41-52 for a primary-key-marked field `f` (name already resolved):
record it as the table's primary key, set `auto`/`ai` when it declares
auto-increment (warning when its name is not the conventional one,
lines 45-50), and append it to `fields` (line 52). -/
def registerPk (st : ScanState) (attr : String) (f : FieldBase) : ScanState :=
  { fields := st.fields ++ [(attr, f)],
    pk := { auto := if f.ai then true else st.pk.auto,
            field := some f,
            ai := if f.ai then some (1 : Int) else st.pk.ai },
    warns :=
      if f.ai ∧ f.name ≠ tableAIPK then st.warns ++ [.aipkNaming]
      else st.warns }

/-- The attribute scan loop of `__prepare__` (lines 30-54). Every attribute
is popped; field descriptors get their name resolved and are appended to
`fields`; a primary-key-marked field is registered in `pk` (failing with
`DuplicatePKError` when one is already registered, line 38); a non-field
attribute outside `Table.DEFAULT` fails with `InvalidFieldType`
(line 54). The duplicate-name check of line 31 runs first on every
iteration. -/
def scanFields : List (String × AttrVal) → ScanState → Except PyErr ScanState
  | [], st => .ok st
  | (attr, v) :: rest, st =>
    if dupName st attr then .error .duplicateFieldName
    else
      match v with
      | .fld f0 =>
        let f := { f0 with name := resolveName f0 attr }
        if f.pk = true then
          if st.pk.field.isSome then .error .duplicatePK
          else scanFields rest (registerPk st attr f)
        else scanFields rest { st with fields := st.fields ++ [(attr, f)] }
      | .plain _ =>
        if attr ∈ tableDEFAULT then scanFields rest st
        else .error .invalidFieldType

/-- The initial scan state: empty fields,
`pk = Tdict(auto=False, field=None, ai=None)` (line 28), and the warnings
already emitted by the header. -/
def initScanState (w : List Warning) : ScanState :=
  { fields := [], pk := { auto := false, field := Option.none, ai := Option.none },
    warns := w }

/-- Lines 18-25 of `__prepare__`: pop `__db__` and `__table__`, warn when no
truthy explicit table name was given, and compute the table name. Line 25
(`table_name = name.lower()`) is NOT guarded by the `if not table_name`
test of line 20, so the lower-cased class name overwrites the explicit
table name unconditionally. -/
def prepareHeader (clsName : String) (attrs : List (String × AttrVal)) :
    String × List Warning × List (String × AttrVal) :=
  let p1 := popAttr "__db__" attrs
  let p2 := popAttr "__table__" p1.2
  let w0 : List Warning := if attrTruthy p2.1 then [] else [.missingTableName]
  (lowerString clsName, w0, p2.2)

/-- The `tables.Table(...)` construction of lines 68-73, which the
`TypeError` raised at line 62 makes unreachable. By the time it would run,
the scan loop has popped every attribute, so
`attrs.pop("__indexes__", ())`, `attrs.pop("__charset__", None)` and
`attrs.pop("__comment__", None)` always yield their defaults. -/
def mkTable (clsName : String) (st : ScanState) : TableT :=
  { name := lowerString clsName, fieldsDict := st.fields, pk := st.pk,
    indexes := [], charset := Option.none, comment := Option.none }

/-- `_ModelMeta.__prepare__` (lines 17-74): header, field scan, `NoPKError`
check (line 56), then line 62 evaluates `isinstance(types.SEQUENCE)` —
`isinstance` called with a single argument, which raises `TypeError`
before the index validation and the Table construction can run. Returns
the emitted warnings together with the raised error (registration can
never return a Table). -/
def prepare (clsName : String) (attrs : List (String × AttrVal)) :
    List Warning × Except PyErr TableT :=
  let h := prepareHeader clsName attrs
  match scanFields h.2.2 (initScanState h.2.1) with
  | .error e => (h.2.1, .error e)
  | .ok st =>
    match st.pk.field with
    | Option.none => (st.warns, .error .noPK)
    | some _ => (st.warns, .error .typeError)

/-- `_ModelMeta.__setattr__` (lines 88-90): every class-level attribute
assignment raises `ModelSetAttrError`, unconditionally. -/
def metaSetattr (_clsName : String) (_key : String) (_v : PyVal) :
    Except PyErr Unit :=
  .error .modelSetAttr

/-- A `_Model` instance's `__dict__`: an ordered mapping from attribute name
to value. -/
abbrev ModelDict := List (String × PyVal)

/-- Python `d[k] = v` on an ordered dict: overwrite in place when the key is
present, append otherwise. -/
def dictSet (d : ModelDict) (k : String) (v : PyVal) : ModelDict :=
  if (d.lookup k).isSome then
    d.map (fun p => if p.1 = k then (k, v) else p)
  else d ++ [(k, v)]

/-- `_Model.__getattr__` (lines 109-119): return the instance `__dict__`
entry; a missing key that names the primary key or a declared field reads
as `None`; anything else raises `AttributeError`. -/
def modelGetattr (t : TableT) (d : ModelDict) (key : String) :
    Except PyErr PyVal :=
  match d.lookup key with
  | some v => .ok v
  | Option.none =>
    if key = t.pkName ∨ (t.fieldsDict.lookup key).isSome then .ok .vnone
    else .error .attributeError

/-- `_Model.__setattr__` (lines 121-132). The auto-increment primary-key
check of lines 122-126 runs first and does NOT consult `is_loader`; then a
non-loader write to a key outside `fields_dict` raises `AttributeError`
(the message interpolation at line 129 dereferences the non-existent
`self.__class`, which itself ends in an `AttributeError`; either way the
write fails with an `AttributeError`). -/
def modelSetattr (t : TableT) (d : ModelDict) (key : String) (v : PyVal)
    (is_loader : Bool) : Except PyErr ModelDict :=
  if t.pk.auto = true ∧ key = t.pkName then .error .modifyAutoPk
  else if is_loader = false ∧ (t.fieldsDict.lookup key).isNone then
    .error .attributeError
  else .ok (dictSet d key v)

/-- `_Model.__self__` (lines 134-145): walk the table's fields in order,
read each field's value through `__getattr__`, substitute the field's
default-value producer when the value is `None` and the field is callable
(modelled from the spec: the optional default-value producer of a
FieldDescriptor), and collect the non-`None` values keyed by field name. -/
def modelSelf (t : TableT) (d : ModelDict) :
    Except PyErr (List (String × PyVal)) :=
  (t.fieldsDict.map Prod.snd).foldlM
    (fun acc f => do
      let v0 ← modelGetattr t d f.name
      let v :=
        if v0 = PyVal.vnone then
          match f.dflt with
          | some dv => dv
          | Option.none => v0
        else v0
      if v ≠ PyVal.vnone then pure (dictSet acc f.name v) else pure acc)
    []

/-- The `Replace` statement built by `_save` (its execution is the external
driver's business): the first constructor argument — here the table NAME,
`self.__table__.name` — and the row payload. -/
structure ReplaceStmt where
  target : String
  rows : List (List (String × PyVal))
  deriving DecidableEq, Repr

/-- The `Delete` statement built by `_remove`: the table name it is
constructed from and the `where` filter `pk.field == pk` (field name and
compared value). -/
structure DeleteStmt where
  target : String
  whereField : String
  whereValue : PyVal
  deriving DecidableEq, Repr

/-- `trod.model_.core.ExecResults` (lines 360-363): affected-row count and
last generated key, as reported by the external driver. -/
structure ExecResults where
  affected : Int
  last_id : PyVal
  deriving DecidableEq, Repr

/-- `_Model._save` (lines 262-268): build `Rows([self.__self__])`, execute
`Replace(self.__table__.name, rows)` (the driver's `ExecResults` is a
parameter here), then write the generated key back with
`self.__setattr__(self.__table__.name, result.last_id)` — the write-back
key is the TABLE name, not the primary-key field name, and `is_loader`
defaults to `False`. Returns the built statement together with the outcome
of the write-back. -/
def modelSave (t : TableT) (d : ModelDict) (result : ExecResults) :
    Except PyErr (ReplaceStmt × Except PyErr ModelDict) :=
  match modelSelf t d with
  | .error e => .error e
  | .ok snap =>
    .ok (⟨t.name, [snap]⟩, modelSetattr t d t.name result.last_id false)

/-- `_Model._remove` (lines 270-279): read the primary-key value through
`__getattr__`, raise `RuntimeError` when it is falsy (`if not pk`), else
build `Delete(self.__table__.name).where(self.__table__.pk.field == pk)`. -/
def modelRemove (t : TableT) (d : ModelDict) : Except PyErr DeleteStmt := do
  let pkv ← modelGetattr t d t.pkName
  if pyTruthy pkv = false then .error .runtimeError
  else pure ⟨t.name, t.pkName, pkv⟩

/-- A value obtained by attribute lookup on a model class: an ordinary class
attribute or a field descriptor from `fields_dict`. -/
inductive ClsAttr where
  | val : PyVal → ClsAttr
  | descriptor : FieldBase → ClsAttr
  deriving DecidableEq, Repr

/-- One full attribute access on a model class, fuel-metered.
`normal` is ordinary class-attribute lookup (`type.__getattribute__`); when
it fails, Python calls `_ModelMeta.__getattr__` (lines 76-86), whose body
re-runs `getattr(cls, key)` — that is this very function again — before its
`except AttributeError` fallback can consult `cls.__table__.fields_dict`.
`Option.none` means the recursion has not terminated within `fuel` steps
(in CPython the stack overflows with a `RecursionError`). -/
def classLookup (normal : String → Option ClsAttr) (t : TableT) :
    Nat → String → Option (Except PyErr ClsAttr)
  | 0, _ => Option.none
  | fuel + 1, key =>
    match normal key with
    | some v => some (.ok v)
    | Option.none =>
      match classLookup normal t fuel key with
      | Option.none => Option.none
      | some (.ok v) => some (.ok v)
      | some (.error .attributeError) =>
        match t.fieldsDict.lookup key with
        | some f => some (.ok (.descriptor f))
        | Option.none => some (.error .attributeError)
      | some (.error e) => some (.error e)

/-- A raw driver result as `load` receives it: a single mapping (row), a
list of mappings, or `None`. -/
inductive RawResult where
  | mapping : List (String × PyVal) → RawResult
  | rows : List (List (String × PyVal)) → RawResult
  | null : RawResult
  deriving DecidableEq, Repr

/-- Python truthiness of a raw result (`if not results`). -/
def rawTruthy : RawResult → Bool
  | .mapping m => !m.isEmpty
  | .rows rs => !rs.isEmpty
  | .null => false

/-- The decoded output of `load`: a generic mapping (`utils.Tdict`), a
single `Record` (its instance `__dict__`), a list of generic mappings, or
a `FetchResult` of records. -/
inductive LoadOut where
  | tdict : List (String × PyVal) → LoadOut
  | record : ModelDict → LoadOut
  | tdictList : List (List (String × PyVal)) → LoadOut
  | fetch : List ModelDict → LoadOut
  deriving DecidableEq, Repr

/-- `_empty` (lines 310-320): an (empty) dict yields an empty `Tdict` or a
freshly constructed model (`model()` runs `__init__` with no kwargs, so
its `__dict__` is empty); an (empty) list/tuple yields `[Tdict()]` or an
empty `FetchResult`; anything else raises `ValueError`. -/
def emptyLoad (results : RawResult) (use_tdict : Bool) :
    Except PyErr LoadOut :=
  match results with
  | .mapping _ =>
    if use_tdict then .ok (.tdict []) else .ok (.record [])
  | .rows _ =>
    if use_tdict then .ok (.tdictList [[]]) else .ok (.fetch [])
  | .null => .error .valueError

/-- Modelled from the spec: `utils.formattdict` is not under `src/`; per the
spec it passes a non-empty mapping (or list of mappings) through as
generic-mapping output. -/
def formattdict : RawResult → Except PyErr LoadOut
  | .mapping m => .ok (.tdict m)
  | .rows rs => .ok (.tdictList rs)
  | .null => .error .valueError

/-- The `_do` helper of `_load_to_model` (lines 326-330) on one row dict:
`model()` then `model.set_value(key, value, is_loader=True)` per item.
`_Model` defines no `set_value`, so on the first iteration the attribute
lookup of `set_value` goes through `_Model.__getattr__` and fails with
`AttributeError` (or, were a field literally named `set_value`, the lookup
would read as `None`/a value and the call would raise `TypeError`). An
empty row performs no iteration and returns the fresh model. -/
def loadRow (t : TableT) (row : List (String × PyVal)) :
    Except PyErr ModelDict :=
  match row with
  | [] => .ok []
  | _ :: _ =>
    match modelGetattr t [] "set_value" with
    | .error e => .error e
    | .ok _ => .error .typeError

/-- `_load_to_model` (lines 323-337): decode a dict into one model, a
list/tuple of dicts into a `FetchResult` of models, anything else raises
`ValueError`. -/
def load_to_model (t : TableT) (results : RawResult) :
    Except PyErr LoadOut :=
  match results with
  | .mapping m => (loadRow t m).map .record
  | .rows rs => (rs.mapM (loadRow t)).map .fetch
  | .null => .error .valueError

/-- `load` (lines 300-307): falsy results go to `_empty`; otherwise
`use_tdict` selects `utils.formattdict`, else `_load_to_model`. The `t`
parameter stands for the `model` argument (the model class and its
table). -/
def load (t : TableT) (results : RawResult) (use_tdict : Bool) :
    Except PyErr LoadOut :=
  if rawTruthy results = false then emptyLoad results use_tdict
  else if use_tdict then formattdict results
  else load_to_model t results

/-- The three payload shapes the spec assigns to `Rows` (single mapping,
list of mappings, list of positional tuples). -/
inductive RowsInput where
  | mapping : List (String × PyVal) → RowsInput
  | mappings : List (List (String × PyVal)) → RowsInput
  | tuples : List (List PyVal) → RowsInput
  deriving DecidableEq, Repr

/-- `Rows` (lines 282-293): `__init__` has body `pass`, so nothing is
validated and nothing is stored — the structure carries no data. -/
structure Rows where
  deriving DecidableEq, Repr

/-- `Rows.__init__` (lines 284-285): accepts any payload and any column
list, performs no check, raises nothing. -/
def RowsInit (_rows : RowsInput) (_columns : Option (List String)) :
    Except PyErr Rows :=
  .ok {}

/-- The `Rows.columns` property (lines 287-289): body `pass`, returns
`None`. -/
def Rows.columns (_r : Rows) : PyVal := .vnone

/-- The `Rows.values` property (lines 291-293): body `pass`, returns
`None`. -/
def Rows.values (_r : Rows) : PyVal := .vnone

/-- Whether a class-body entry is a primary-key-marked field descriptor. -/
def isPkEntry (p : String × AttrVal) : Bool :=
  match p.2 with
  | .fld f => f.pk
  | .plain _ => false

/-- Whether a class-body entry passes the scan loop without error: a field
descriptor, or a plain attribute under a framework-reserved name. -/
def attrOk (p : String × AttrVal) : Bool :=
  match p.2 with
  | .fld _ => true
  | .plain _ => decide (p.1 ∈ tableDEFAULT)

/-- Whether a class-body entry's key is neither `__db__` nor `__table__`
(the two keys `__prepare__` pops before the scan). -/
def notReserved (p : String × AttrVal) : Bool :=
  decide (p.1 ≠ "__db__" ∧ p.1 ≠ "__table__")

/-- The number of primary-key-marked descriptors in an ordered field dict. -/
def pkFieldCount (l : List (String × FieldBase)) : Nat :=
  (l.filter (fun p => p.2.pk)).length

/-- The `id` field of the spec's `Person` scenario: primary key,
auto-increment. -/
def fldId : FieldBase := { name := "id", pk := true, ai := true }

/-- The `name` field of the spec's `Person` scenario. -/
def fldName : FieldBase := { name := "name" }

/-- The table of the spec's `Person` scenario (auto-increment primary key),
with the metadata registration would attach. -/
def personTable : TableT :=
  { name := "person",
    fieldsDict := [("id", fldId), ("name", fldName)],
    pk := { auto := true, field := some fldId, ai := some 1 } }

/-- A table whose primary key is NOT auto-increment, so its records may set
the key through the public write path. -/
def noteTable : TableT :=
  { name := "note",
    fieldsDict :=
      [("id", { name := "id", pk := true }), ("body", { name := "body" })],
    pk := { auto := false, field := some { name := "id", pk := true },
            ai := Option.none } }

/-- The positional-tuple payload of the spec's RowBatch scenario. -/
def bobHerbTuples : RowsInput :=
  .tuples [[.str "Bob", .str "Foo"], [.str "Herb", .str "Bar"]]

/-- C3: registration does warn exactly when no explicit table name is given,
but line 25 overwrites the explicit name unconditionally: for class
`Person` declared with `__table__ = "people"`, no warning is emitted yet
the registered table name is `person` (the lower-cased class name), not
`people`. -/
theorem explicit_table_name_overwritten :
    (prepareHeader "Person"
        [("__table__", .plain (.str "people")),
         ("id", .fld { pk := true, ai := true })]).1 = "person" ∧
    (prepareHeader "Person"
        [("__table__", .plain (.str "people")),
         ("id", .fld { pk := true, ai := true })]).2.1 = [] ∧
    (prepareHeader "Person"
        [("id", .fld { pk := true, ai := true })]).2.1
      = [.missingTableName] ∧
    "person" ≠ "people" := by decide

/-- C4: on an auto-increment-keyed record, every public write to the
primary-key field raises `ModifyAutoPkError`; but the trusted-loader path
fails the same way, because the auto-PK check of `__setattr__` runs before
and regardless of `is_loader` — so the loader cannot set the key either. -/
theorem loader_cannot_set_auto_pk :
    (∀ d v, modelSetattr personTable d "id" v false = .error .modifyAutoPk) ∧
    modelSetattr personTable [] "id" (.int 7) true
      = .error .modifyAutoPk := by
  refine ⟨fun d v => ?_, by decide⟩
  rfl

/-- C5: `_ModelMeta.__setattr__` raises `ModelSetAttrError` on every class
attribute assignment, unconditionally — in particular after a Table has
been registered, so the registered schema can never be mutated through
class attribute assignment. -/
theorem class_attribute_assignment_always_fails :
    ∀ cls key v, metaSetattr cls key v = .error .modelSetAttr :=
  fun _ _ _ => rfl

/-- C6: the empty-result policy of `load`: an empty mapping yields an empty
generic mapping when generic output is requested and a freshly
constructed, unpopulated record otherwise; an empty list yields a
one-element list holding one empty generic mapping when generic output is
requested and an empty FetchResult otherwise. -/
theorem empty_result_policy :
    ∀ t : TableT,
      load t (.mapping []) true = .ok (.tdict []) ∧
      load t (.mapping []) false = .ok (.record []) ∧
      load t (.rows []) true = .ok (.tdictList [[]]) ∧
      load t (.rows []) false = .ok (.fetch []) :=
  fun _ => ⟨rfl, rfl, rfl, rfl⟩

/-- C7: the `Rows` stub accepts the spec's positional-tuple payload with a
column list of mismatched arity without raising `ValueError`, and exposes
no positional alignment at all: its constructor stores nothing and its
`columns`/`values` properties return `None`. -/
theorem rows_stub_accepts_mismatched_arity :
    RowsInit bobHerbTuples (some ["first"]) = .ok Rows.mk ∧
    RowsInit bobHerbTuples (some ["first", "last"]) = .ok Rows.mk ∧
    Rows.columns Rows.mk = PyVal.vnone ∧
    Rows.values Rows.mk = PyVal.vnone := by decide

/-- C8: `_save` does build a Replace of the record's own attribute snapshot,
but the write-back targets the attribute named after the TABLE
(`self.__table__.name`), not the primary-key field: for a `person` record,
the write-back key `person` is not a declared field, so the write-back
raises `AttributeError` instead of storing the generated key in `id`. -/
theorem save_writes_back_to_table_name :
    modelSave personTable [("name", .str "Alice")] ⟨1, .int 7⟩
      = .ok (⟨"person", [[("name", .str "Alice")]]⟩,
             .error .attributeError) ∧
    personTable.name ≠ personTable.pkName := by decide

/-- C10 counterexample: a note record whose primary-key value IS set — to
the integer `0` — still fails `remove` with `RuntimeError`, because the
guard tests Python falsiness (`if not pk`), not unset-ness. -/
theorem remove_zero_pk_counterexample :
    ([("id", PyVal.int 0)] : ModelDict).lookup "id" = some (.int 0) ∧
    modelRemove noteTable [("id", PyVal.int 0)]
      = .error .runtimeError := by decide

/-- C10 amended: `remove` fails fast with `RuntimeError` whenever the
record's primary-key value is falsy (unset/None, 0, or the empty string),
and otherwise issues a Delete on the table filtered by the current
primary-key value. -/
theorem remove_falsy_pk_policy (t : TableT) (d : ModelDict) (v : PyVal)
    (hv : modelGetattr t d t.pkName = .ok v) :
    (pyTruthy v = false → modelRemove t d = .error .runtimeError) ∧
    (pyTruthy v = true → modelRemove t d = .ok ⟨t.name, t.pkName, v⟩) := by
  constructor <;> intro h <;>
    simp [modelRemove, hv, h, Except.bind, Bind.bind, Pure.pure, Except.pure]

/-- Witness for the amended C10: a note record with primary key `5` is
removed via a Delete filtered by `id = 5`. -/
theorem remove_falsy_pk_policy_witness :
    modelRemove noteTable [("id", PyVal.int 5)]
      = .ok ⟨"note", "id", PyVal.int 5⟩ :=
  (remove_falsy_pk_policy noteTable [("id", PyVal.int 5)] (PyVal.int 5)
    (by decide)).2 (by decide)

/-- When ordinary class-attribute lookup fails for `key`, the `getattr`
re-entry inside `_ModelMeta.__getattr__` never terminates: no amount of
fuel produces a result. -/
theorem classLookup_diverges_of_no_normal_attr
    (normal : String → Option ClsAttr) (t : TableT) (key : String)
    (h : normal key = Option.none) :
    ∀ fuel, classLookup normal t fuel key = Option.none := by
  intro fuel
  induction fuel with
  | zero => rfl
  | succ n ih => simp [classLookup, h, ih]

/-- C9: looking up a declared field's name on the model class does not fall
back to the Table's field set: `name` is a declared field of `person` and
not a normal class attribute, yet the lookup never returns its descriptor
(or anything else) — the `getattr(cls, key)` call inside
`_ModelMeta.__getattr__` re-enters the same fallback forever, so in CPython
the access dies with a `RecursionError` before the `fields_dict` fallback
can run. -/
theorem class_field_lookup_diverges :
    (personTable.fieldsDict.lookup "name").isSome = true ∧
    ∀ fuel, classLookup (fun _ => Option.none) personTable fuel "name"
      = Option.none :=
  ⟨by decide,
   classLookup_diverges_of_no_normal_attr _ personTable "name" rfl⟩

/-- C2: once the field scan and the primary-key checks pass, `__prepare__`
unconditionally raises `TypeError` at line 62 (`isinstance` applied to a
single argument), so registration never returns a Table: for every class
body, `prepare` never succeeds. -/
theorem registration_never_completes :
    (∀ cls attrs st,
      scanFields (prepareHeader cls attrs).2.2
          (initScanState (prepareHeader cls attrs).2.1) = .ok st →
      st.pk.field.isSome = true →
      (prepare cls attrs).2 = .error .typeError) ∧
    (∀ cls attrs t, (prepare cls attrs).2 ≠ .ok t) := by
  constructor
  · intro cls attrs st hscan hpk
    obtain ⟨f, hf⟩ := Option.isSome_iff_exists.mp hpk
    simp only [prepare, hscan, hf]
  · intro cls attrs t
    simp only [prepare]
    rcases hscan : scanFields (prepareHeader cls attrs).2.2
        (initScanState (prepareHeader cls attrs).2.1) with e | st
    · simp
    · rcases hf : st.pk.field with _ | f <;> simp [hf]

/-- Association-list lookup misses when no key matches. -/
theorem lookup_eq_none_of_ne {β : Type} (k : String)
    (l : List (String × β)) (h : ∀ p ∈ l, p.1 ≠ k) :
    l.lookup k = Option.none := by
  induction l with
  | nil => rfl
  | cons p rest ih =>
    obtain ⟨a, b⟩ := p
    have ha : ¬(k == a) = true := by
      simp only [beq_iff_eq]
      exact fun hk => h (a, b) (List.mem_cons_self _ _) (hk ▸ rfl)
    simp only [List.lookup, ha, if_neg, Bool.false_eq_true, ite_false]
    exact ih fun q hq => h q (List.mem_cons_of_mem _ hq)

/-- When a class body declares no `__db__` and no `__table__` key, the
header pops nothing, warns about the missing table name, and hands the
body unchanged to the scan. -/
theorem prepareHeader_no_reserved (cls : String)
    (attrs : List (String × AttrVal))
    (h : ∀ p ∈ attrs, notReserved p = true) :
    prepareHeader cls attrs
      = (lowerString cls, [.missingTableName], attrs) := by
  have h1 : attrs.lookup "__db__" = Option.none :=
    lookup_eq_none_of_ne _ _ fun p hp => by
      have := h p hp
      simp only [notReserved, decide_eq_true_eq] at this
      exact this.1
  have h2 : attrs.lookup "__table__" = Option.none :=
    lookup_eq_none_of_ne _ _ fun p hp => by
      have := h p hp
      simp only [notReserved, decide_eq_true_eq] at this
      exact this.2
  simp [prepareHeader, popAttr, h1, h2, attrTruthy]

/-- The scan of a concatenation runs the first part and, when it succeeds,
continues with the second from the resulting state. -/
theorem scanFields_append (xs ys : List (String × AttrVal)) (st : ScanState) :
    scanFields (xs ++ ys) st =
      match scanFields xs st with
      | .ok st2 => scanFields ys st2
      | .error e => .error e := by
  induction xs generalizing st with
  | nil => simp [scanFields]
  | cons p xs ih =>
    obtain ⟨a, v⟩ := p
    by_cases hd : dupName st a
    · simp [scanFields, hd]
    · cases v with
      | plain pv =>
        by_cases hm : a ∈ tableDEFAULT
        · simp [scanFields, hd, hm, ih]
        · simp [scanFields, hd, hm]
      | fld f0 =>
        by_cases hpk : f0.pk = true
        · by_cases hs : st.pk.field.isSome
          · simp [scanFields, hd, hpk, hs]
          · simp [scanFields, hd, hpk, hs, ih]
        · simp [scanFields, hd, hpk, ih]

/-- A run of valid, non-primary-key attributes scans through without error
and leaves the primary-key slot empty. -/
theorem scan_no_pk (attrs : List (String × AttrVal)) (st : ScanState)
    (hpk : st.pk.field = Option.none)
    (hok : ∀ p ∈ attrs, attrOk p = true ∧ isPkEntry p = false) :
    ∃ st2, scanFields attrs st = .ok st2 ∧ st2.pk.field = Option.none := by
  induction attrs generalizing st with
  | nil => exact ⟨st, rfl, hpk⟩
  | cons p rest ih =>
    obtain ⟨a, v⟩ := p
    obtain ⟨h1, h2⟩ := hok (a, v) (List.mem_cons_self _ _)
    have hrest := fun q hq => hok q (List.mem_cons_of_mem _ hq)
    have hdn : dupName st a = false := by simp [dupName, hpk]
    cases v with
    | plain pv =>
      have hm : a ∈ tableDEFAULT := by
        simpa [attrOk] using h1
      simpa [scanFields, hdn, hm] using ih st hpk hrest
    | fld f0 =>
      have hfpk : f0.pk = false := by simpa [isPkEntry] using h2
      simpa [scanFields, hdn, hfpk] using
        ih { st with fields
              := st.fields ++ [(a, { f0 with name := resolveName f0 a })] }
          hpk hrest

/-- A run of valid, non-primary-key attributes whose keys avoid the
registered primary key's name scans through and keeps that primary key. -/
theorem scan_keep_pk (attrs : List (String × AttrVal)) (st : ScanState)
    (pf : FieldBase) (hpk : st.pk.field = some pf)
    (hok : ∀ p ∈ attrs,
      attrOk p = true ∧ isPkEntry p = false ∧ p.1 ≠ pf.name) :
    ∃ st2, scanFields attrs st = .ok st2 ∧ st2.pk.field = some pf := by
  induction attrs generalizing st with
  | nil => exact ⟨st, rfl, hpk⟩
  | cons p rest ih =>
    obtain ⟨a, v⟩ := p
    obtain ⟨h1, h2, h3⟩ := hok (a, v) (List.mem_cons_self _ _)
    have hrest := fun q hq => hok q (List.mem_cons_of_mem _ hq)
    have hdn : dupName st a = false := by simp [dupName, hpk, h3]
    cases v with
    | plain pv =>
      have hm : a ∈ tableDEFAULT := by simpa [attrOk] using h1
      simpa [scanFields, hdn, hm] using ih st hpk hrest
    | fld f0 =>
      have hfpk : f0.pk = false := by simpa [isPkEntry] using h2
      simpa [scanFields, hdn, hfpk] using
        ih { st with fields
              := st.fields ++ [(a, { f0 with name := resolveName f0 a })] }
          hpk hrest

/-- Scanning a primary-key-marked field from a state with no registered
primary key registers it (with its resolved name) and continues. -/
theorem scan_first_pk_step (a1 : String) (f1 : FieldBase)
    (rest : List (String × AttrVal)) (st : ScanState)
    (hpk : st.pk.field = Option.none) (hf1 : f1.pk = true) :
    scanFields ((a1, .fld f1) :: rest) st
      = scanFields rest
          (registerPk st a1 { f1 with name := resolveName f1 a1 }) ∧
    (registerPk st a1 { f1 with name := resolveName f1 a1 }).pk.field
      = some { f1 with name := resolveName f1 a1 } := by
  have hdn : dupName st a1 = false := by simp [dupName, hpk]
  constructor
  · simp [scanFields, hdn, hf1, hpk]
  · simp [registerPk]

/-- Scanning a primary-key-marked field from a state that already holds a
primary key (under a non-colliding attribute key) raises
`DuplicatePKError`. -/
theorem scan_second_pk (a2 : String) (f2 : FieldBase)
    (ws : List (String × AttrVal)) (st : ScanState)
    (hs : st.pk.field.isSome = true) (hdn : dupName st a2 = false)
    (hf2 : f2.pk = true) :
    scanFields ((a2, .fld f2) :: ws) st = .error .duplicatePK := by
  simp [scanFields, hdn, hf2, hs]

/-- Along a successful scan, the number of primary-key-marked fields equals
one when a primary key is registered and zero otherwise. -/
theorem scan_pk_count (attrs : List (String × AttrVal)) (st st2 : ScanState)
    (h : scanFields attrs st = .ok st2)
    (hinv : pkFieldCount st.fields = if st.pk.field.isSome then 1 else 0) :
    pkFieldCount st2.fields = if st2.pk.field.isSome then 1 else 0 := by
  induction attrs generalizing st with
  | nil =>
    simp only [scanFields, Except.ok.injEq] at h
    exact h ▸ hinv
  | cons p rest ih =>
    obtain ⟨a, v⟩ := p
    by_cases hd : dupName st a
    · simp [scanFields, hd] at h
    · cases v with
      | plain pv =>
        by_cases hm : a ∈ tableDEFAULT
        · exact ih st (by simpa [scanFields, hd, hm] using h) hinv
        · simp [scanFields, hd, hm] at h
      | fld f0 =>
        by_cases hpk : f0.pk = true
        · by_cases hs : st.pk.field.isSome
          · simp [scanFields, hd, hpk, hs] at h
          · refine ih _ (by simpa [scanFields, hd, hpk, hs] using h) ?_
            simp only [Bool.not_eq_true] at hs
            simp [registerPk, pkFieldCount, List.filter_append, hpk]
            simpa [pkFieldCount, hs] using hinv
        · refine ih _ (by simpa [scanFields, hd, hpk] using h) ?_
          have hfpk : f0.pk = false := by simpa using hpk
          simpa [pkFieldCount, List.filter_append, hfpk] using hinv

/-- Witness for C2: the one-field class body `id = <pk, auto-increment>`
passes the scan with a registered primary key, and its registration raises
`TypeError`. -/
theorem registration_never_completes_witness :
    (prepare "Person" [("id", .fld { pk := true, ai := true })]).2
      = .error .typeError :=
  registration_never_completes.1 "Person"
    [("id", .fld { pk := true, ai := true })]
    { fields := [("id", { name := "id", pk := true, ai := true })],
      pk := { auto := true,
              field := some { name := "id", pk := true, ai := true },
              ai := some 1 },
      warns := [.missingTableName] }
    (by decide) (by decide)

/-- C1 counterexample: a class body with TWO primary-key-marked fields whose
second attribute key collides with the first primary key's declared name
(`a = Field(name="b", pk)` then `b = Field(pk)`) fails with
`DuplicateFieldNameError` — raised by the line 31 check — not with
`DuplicatePKError` as the claim states. -/
theorem duplicate_pk_masked_by_name_collision :
    ([("a", AttrVal.fld { name := "b", pk := true }),
      ("b", AttrVal.fld { pk := true })].countP isPkEntry = 2) ∧
    (prepare "M" [("a", .fld { name := "b", pk := true }),
                  ("b", .fld { pk := true })]).2
      = .error .duplicateFieldName ∧
    PyErr.duplicateFieldName ≠ PyErr.duplicatePK := by decide

/-- C1 amended: (1) in a class body whose attributes are all fields or
reserved names, with exactly one primary-key-marked field before a second
one and no intervening or second attribute key equal to the first primary
key's resolved name, registration fails with `DuplicatePKError` at the
second occurrence; (2) with no primary-key-marked field at all it fails
with `NoPKError`; (3) any state a successful scan can hand to the Table
constructor carries exactly one primary-key-marked field. -/
theorem pk_registration_policy :
    (∀ cls a1 a2 : String, ∀ f1 f2 : FieldBase,
      ∀ xs zs ws : List (String × AttrVal),
      (∀ p ∈ xs ++ (a1, AttrVal.fld f1) :: zs ++ (a2, AttrVal.fld f2) :: ws,
        notReserved p = true) →
      (∀ p ∈ xs, attrOk p = true ∧ isPkEntry p = false) →
      f1.pk = true →
      (∀ p ∈ zs,
        attrOk p = true ∧ isPkEntry p = false ∧ p.1 ≠ resolveName f1 a1) →
      a2 ≠ resolveName f1 a1 →
      f2.pk = true →
      (prepare cls
          (xs ++ (a1, .fld f1) :: zs ++ (a2, .fld f2) :: ws)).2
        = .error .duplicatePK) ∧
    (∀ cls : String, ∀ attrs : List (String × AttrVal),
      (∀ p ∈ attrs, notReserved p = true) →
      (∀ p ∈ attrs, attrOk p = true ∧ isPkEntry p = false) →
      (prepare cls attrs).2 = .error .noPK) ∧
    (∀ cls : String, ∀ attrs : List (String × AttrVal),
      ∀ w : List Warning, ∀ st : ScanState,
      scanFields attrs (initScanState w) = .ok st →
      st.pk.field.isSome = true →
      pkFieldCount (mkTable cls st).fieldsDict = 1) := by
  refine ⟨?_, ?_, ?_⟩
  · intro cls a1 a2 f1 f2 xs zs ws hres hxs hf1 hzs ha2 hf2
    have hhdr := prepareHeader_no_reserved cls _ hres
    obtain ⟨stx, hstx, hstxpk⟩ :=
      scan_no_pk xs (initScanState [.missingTableName]) rfl hxs
    obtain ⟨hstep, hst1pk⟩ := scan_first_pk_step a1 f1 zs stx hstxpk hf1
    obtain ⟨stz, hstz, hstzpk⟩ :=
      scan_keep_pk zs _ _ hst1pk (by simpa using hzs)
    have hdn : dupName stz a2 = false := by
      simp [dupName, hstzpk, ha2]
    have hsec := scan_second_pk a2 f2 ws stz (by simp [hstzpk]) hdn hf2
    simp only [prepare, hhdr, scanFields_append, hstx, hstep, hstz, hsec]
  · intro cls attrs hres hok
    have hhdr := prepareHeader_no_reserved cls _ hres
    simp only [prepare, hhdr]
    obtain ⟨st, hst, hstpk⟩ :=
      scan_no_pk attrs (initScanState [.missingTableName]) rfl hok
    rw [hst]
    simp [hstpk]
  · intro cls attrs w st hscan hpk
    have hcount := scan_pk_count attrs (initScanState w) st hscan
      (by simp [initScanState, pkFieldCount])
    simpa [mkTable, hpk] using hcount

/-- Witness for the amended C1: `x = Field(pk); y = Field(pk)` fails with
`DuplicatePKError` at `y`; `x = Field()` (no primary key) fails with
`NoPKError`; the state the scan of `x = Field(pk)` produces carries
exactly one primary-key field. -/
theorem pk_registration_policy_witness :
    (prepare "M" [("x", .fld { pk := true }), ("y", .fld { pk := true })]).2
      = .error .duplicatePK ∧
    (prepare "M" [("x", .fld {})]).2 = .error .noPK ∧
    pkFieldCount
      (mkTable "M"
        { fields := [("x", { name := "x", pk := true })],
          pk := { auto := false, field := some { name := "x", pk := true },
                  ai := Option.none },
          warns := [.missingTableName] }).fieldsDict = 1 := by
  refine ⟨?_, ?_, ?_⟩
  · exact pk_registration_policy.1 "M" "x" "y" { pk := true } { pk := true }
      [] [] [] (by decide) (by decide) (by decide) (by decide) (by decide)
      (by decide)
  · exact pk_registration_policy.2.1 "M" [("x", .fld {})]
      (by decide) (by decide)
  · exact pk_registration_policy.2.2 "M" [("x", .fld { pk := true })]
      [.missingTableName] _ (by decide) (by decide)

end Trod
